import Mathlib

/-!
# Verification of the e-book platform record schemas

Shallow embedding of `src/schemas.py`: four Pydantic record models
(`User`, `Ebook`, `Purchase`, `LibraryItem`) plus the `SchemaInfo`
wrapper, each validated from an untrusted structured document
(a field-name-to-value mapping, as decoded from a request body or a
stored MongoDB document).

Modelling conventions:
* Numbers (`float` fields) are embedded as `Rat`; only order
  comparisons against the literal bounds 0 and 100 occur, on which
  `Rat` agrees with IEEE semantics for ordinary finite values.
* `datetime` values are embedded as an abstract `Int` timestamp;
  the schema layer never inspects them.
* `EmailStr` and `HttpUrl` are third-party validators; they are
  embedded as executable well-formedness checks on the underlying
  string: an email needs a nonempty local part, exactly one `@`, and
  a nonempty domain containing a dot; an HTTP URL needs an
  `http://` or `https://` scheme, a nonempty remainder, and total
  length at most 2083.  The validated value is the string itself
  (no normalisation), which is what serialisation emits back.
* Validation is strict about runtime types (no Pydantic coercions such
  as `"1"` to `1`): every claim under consideration supplies values of
  the declared runtime type.
* Pydantic validates fields in declaration order; the embedded
  validators check fields in the same order and surface the first
  violation as a single `ValidationError` carrying the field name and
  the kind of violation.
-/

/-- A runtime value of an input document field: the value shapes that
can actually occur for the declared field types of `schemas.py`
(strings, numbers, booleans, datetimes, explicit nulls, lists of
strings, and string-to-string mappings). -/
inductive Value where
  | str (s : String)
  | num (q : Rat)
  | bool (b : Bool)
  | time (t : Int)
  | null
  | strList (xs : List String)
  | strDict (kvs : List (String × String))
  deriving DecidableEq, Repr

/-- An input document: a mapping from field name to value, as would
arrive from a decoded request body or a storage read. -/
abbrev Doc := List (String × Value)

/-- The nature of a single violated constraint, mirroring the error
classes surfaced by Pydantic validation. -/
inductive Violation where
  | missing
  | typeMismatch
  | boundViolation
  | enumViolation
  | malformedEmail
  | malformedUrl
  deriving DecidableEq, Repr

/-- The single error kind of the schema layer: which field failed and
how. -/
structure ValidationError where
  field : String
  violation : Violation
  deriving DecidableEq, Repr

deriving instance DecidableEq for Except

/-- Look a field up by name; the first binding wins (input mappings
have unique keys). -/
def getField : Doc → String → Option Value
  | [], _ => none
  | (k, v) :: rest, key => if k = key then some v else getField rest key

/-- Split a character list at the first occurrence of `c`; `none` when
`c` does not occur. -/
def splitAtChar (c : Char) : List Char → Option (List Char × List Char)
  | [] => none
  | x :: xs =>
    if x = c then some ([], xs)
    else
      match splitAtChar c xs with
      | none => none
      | some (l, r) => some (x :: l, r)

/-- Embedded `EmailStr` well-formedness: a nonempty local part, a
single `@`, and a nonempty domain containing a dot. -/
def isValidEmail (s : String) : Bool :=
  match splitAtChar '@' s.toList with
  | none => false
  | some (l, r) => !l.isEmpty && !r.isEmpty && r.contains '.' && !r.contains '@'

/-- Does `pat` occur as an initial segment of `cs`? -/
def headSeg : List Char → List Char → Bool
  | [], _ => true
  | _ :: _, [] => false
  | p :: ps, c :: cs => p = c && headSeg ps cs

/-- Embedded `HttpUrl` well-formedness: an `http://` or `https://`
scheme, a nonempty remainder, total length at most 2083. -/
def isValidHttpUrl (s : String) : Bool :=
  let cs := s.toList
  (headSeg "http://".toList cs || headSeg "https://".toList cs)
    && decide (7 < cs.length) && decide (cs.length ≤ 2083)

/-- Are the length bounds `lo ≤ s.length ≤ hi` met? -/
def lenOk (s : String) (lo hi : Nat) : Bool :=
  decide (lo ≤ s.length) && decide (s.length ≤ hi)

/-- Required string field with length bounds (`Field(..., min_length,
max_length)`). -/
def reqStrLen (d : Doc) (k : String) (lo hi : Nat) :
    Except ValidationError String :=
  match getField d k with
  | some (.str s) =>
      if lenOk s lo hi then .ok s else .error ⟨k, .boundViolation⟩
  | some _ => .error ⟨k, .typeMismatch⟩
  | none => .error ⟨k, .missing⟩

/-- Required email field (`EmailStr`). -/
def reqEmail (d : Doc) (k : String) : Except ValidationError String :=
  match getField d k with
  | some (.str s) =>
      if isValidEmail s then .ok s else .error ⟨k, .malformedEmail⟩
  | some _ => .error ⟨k, .typeMismatch⟩
  | none => .error ⟨k, .missing⟩

/-- Required plain string field (no constraint beyond the type). -/
def reqStr (d : Doc) (k : String) : Except ValidationError String :=
  match getField d k with
  | some (.str s) => .ok s
  | some _ => .error ⟨k, .typeMismatch⟩
  | none => .error ⟨k, .missing⟩

/-- Optional plain string field (`Optional[str] = None`). -/
def optStr (d : Doc) (k : String) : Except ValidationError (Option String) :=
  match getField d k with
  | some (.str s) => .ok (some s)
  | some .null => .ok none
  | some _ => .error ⟨k, .typeMismatch⟩
  | none => .ok none

/-- Optional string field with a maximum length
(`Optional[str] = Field(None, max_length=hi)`). -/
def optStrLen (d : Doc) (k : String) (hi : Nat) :
    Except ValidationError (Option String) :=
  match getField d k with
  | some (.str s) =>
      if decide (s.length ≤ hi) then .ok (some s)
      else .error ⟨k, .boundViolation⟩
  | some .null => .ok none
  | some _ => .error ⟨k, .typeMismatch⟩
  | none => .ok none

/-- Optional URL field (`Optional[HttpUrl] = None`). -/
def optUrl (d : Doc) (k : String) : Except ValidationError (Option String) :=
  match getField d k with
  | some (.str s) =>
      if isValidHttpUrl s then .ok (some s) else .error ⟨k, .malformedUrl⟩
  | some .null => .ok none
  | some _ => .error ⟨k, .typeMismatch⟩
  | none => .ok none

/-- Enumerated string field with a default (`Literal[...] = dflt`). -/
def enumDefault (d : Doc) (k : String) (allowed : List String)
    (dflt : String) : Except ValidationError String :=
  match getField d k with
  | some (.str s) =>
      if allowed.contains s then .ok s else .error ⟨k, .enumViolation⟩
  | some _ => .error ⟨k, .typeMismatch⟩
  | none => .ok dflt

/-- Boolean field with a default (`bool = dflt`). -/
def boolDefault (d : Doc) (k : String) (dflt : Bool) :
    Except ValidationError Bool :=
  match getField d k with
  | some (.bool b) => .ok b
  | some _ => .error ⟨k, .typeMismatch⟩
  | none => .ok dflt

/-- Required number field bounded below (`Field(..., ge=lo)`). -/
def reqNumGe (d : Doc) (k : String) (lo : Rat) :
    Except ValidationError Rat :=
  match getField d k with
  | some (.num q) =>
      if decide (lo ≤ q) then .ok q else .error ⟨k, .boundViolation⟩
  | some _ => .error ⟨k, .typeMismatch⟩
  | none => .error ⟨k, .missing⟩

/-- Range-bounded number field with a default
(`Field(dflt, ge=lo, le=hi)`). -/
def numRangeDefault (d : Doc) (k : String) (lo hi dflt : Rat) :
    Except ValidationError Rat :=
  match getField d k with
  | some (.num q) =>
      if decide (lo ≤ q) && decide (q ≤ hi) then .ok q
      else .error ⟨k, .boundViolation⟩
  | some _ => .error ⟨k, .typeMismatch⟩
  | none => .ok dflt

/-- Optional datetime field (`Optional[datetime] = None`). -/
def optTime (d : Doc) (k : String) : Except ValidationError (Option Int) :=
  match getField d k with
  | some (.time t) => .ok (some t)
  | some .null => .ok none
  | some _ => .error ⟨k, .typeMismatch⟩
  | none => .ok none

/-- `Dict[str, HttpUrl]` field with an empty-dict default
(`Field(default_factory=dict)`): every value must be a well-formed
URL. -/
def urlDictDefault (d : Doc) (k : String) :
    Except ValidationError (List (String × String)) :=
  match getField d k with
  | some (.strDict kvs) =>
      if kvs.all (fun kv => isValidHttpUrl kv.2) then .ok kvs
      else .error ⟨k, .malformedUrl⟩
  | some _ => .error ⟨k, .typeMismatch⟩
  | none => .ok []

/-- `List[str]` field with an empty-list default
(`Field(default_factory=list)`). -/
def strListDefault (d : Doc) (k : String) :
    Except ValidationError (List String) :=
  match getField d k with
  | some (.strList xs) => .ok xs
  | some _ => .error ⟨k, .typeMismatch⟩
  | none => .ok []

/-- The `User` record of `schemas.py`. -/
structure User where
  name : String
  email : String
  hashed_password : String
  role : String
  avatar_url : Option String
  is_active : Bool
  deriving DecidableEq, Repr

/-- Validate/construct a `User` from an input document, enforcing the
declared constraints of `schemas.py` in field declaration order. -/
def validateUser (d : Doc) : Except ValidationError User := do
  let name ← reqStrLen d "name" 2 120
  let email ← reqEmail d "email"
  let hp ← reqStrLen d "hashed_password" 60 200
  let role ← enumDefault d "role" ["user", "admin"] "user"
  let av ← optUrl d "avatar_url"
  let act ← boolDefault d "is_active" true
  pure ⟨name, email, hp, role, av, act⟩

/-- Serialise an optional string back to a document value: Pydantic
`.dict()` emits `None` for absent optional fields. -/
def optStrVal : Option String → Value
  | none => .null
  | some s => .str s

/-- Serialise a `User` record to a plain document (Pydantic
`.dict()`). -/
def serializeUser (u : User) : Doc :=
  [("name", .str u.name), ("email", .str u.email),
   ("hashed_password", .str u.hashed_password), ("role", .str u.role),
   ("avatar_url", optStrVal u.avatar_url), ("is_active", .bool u.is_active)]

/-- All declared `User` field constraints hold of the record. -/
def goodUser (u : User) : Bool :=
  lenOk u.name 2 120 && isValidEmail u.email
    && lenOk u.hashed_password 60 200
    && ["user", "admin"].contains u.role
    && u.avatar_url.all isValidHttpUrl

/-- The `Ebook` record of `schemas.py`. -/
structure Ebook where
  title : String
  author : String
  description : Option String
  price : Rat
  currency : String
  cover_url : Option String
  file_urls : List (String × String)
  categories : List String
  published : Bool
  created_by : Option String
  deriving DecidableEq, Repr

/-- Validate/construct an `Ebook` from an input document, enforcing
the declared constraints of `schemas.py` in field declaration
order. -/
def validateEbook (d : Doc) : Except ValidationError Ebook := do
  let title ← reqStrLen d "title" 1 200
  let author ← reqStrLen d "author" 1 120
  let descr ← optStrLen d "description" 5000
  let price ← reqNumGe d "price" 0
  let curr ← enumDefault d "currency" ["INR", "USD"] "INR"
  let cover ← optUrl d "cover_url"
  let urls ← urlDictDefault d "file_urls"
  let cats ← strListDefault d "categories"
  let pub ← boolDefault d "published" true
  let creator ← optStr d "created_by"
  pure ⟨title, author, descr, price, curr, cover, urls, cats, pub, creator⟩

/-- Serialise an `Ebook` record to a plain document. -/
def serializeEbook (e : Ebook) : Doc :=
  [("title", .str e.title), ("author", .str e.author),
   ("description", optStrVal e.description), ("price", .num e.price),
   ("currency", .str e.currency), ("cover_url", optStrVal e.cover_url),
   ("file_urls", .strDict e.file_urls),
   ("categories", .strList e.categories),
   ("published", .bool e.published),
   ("created_by", optStrVal e.created_by)]

/-- All declared `Ebook` field constraints hold of the record. -/
def goodEbook (e : Ebook) : Bool :=
  lenOk e.title 1 200 && lenOk e.author 1 120
    && e.description.all (fun s => decide (s.length ≤ 5000))
    && decide ((0 : Rat) ≤ e.price)
    && ["INR", "USD"].contains e.currency
    && e.cover_url.all isValidHttpUrl
    && e.file_urls.all (fun kv => isValidHttpUrl kv.2)

/-- The `Purchase` record of `schemas.py`. -/
structure Purchase where
  user_id : String
  ebook_id : String
  amount : Rat
  currency : String
  status : String
  razorpay_order_id : Option String
  razorpay_payment_id : Option String
  razorpay_signature : Option String
  deriving DecidableEq, Repr

/-- Validate/construct a `Purchase` from an input document, enforcing
the declared constraints of `schemas.py` in field declaration
order. -/
def validatePurchase (d : Doc) : Except ValidationError Purchase := do
  let uid ← reqStr d "user_id"
  let eid ← reqStr d "ebook_id"
  let amount ← reqNumGe d "amount" 0
  let curr ← enumDefault d "currency" ["INR", "USD"] "INR"
  let status ← enumDefault d "status"
    ["created", "paid", "failed", "refunded"] "created"
  let oid ← optStr d "razorpay_order_id"
  let pid ← optStr d "razorpay_payment_id"
  let sig ← optStr d "razorpay_signature"
  pure ⟨uid, eid, amount, curr, status, oid, pid, sig⟩

/-- Serialise a `Purchase` record to a plain document. -/
def serializePurchase (p : Purchase) : Doc :=
  [("user_id", .str p.user_id), ("ebook_id", .str p.ebook_id),
   ("amount", .num p.amount), ("currency", .str p.currency),
   ("status", .str p.status),
   ("razorpay_order_id", optStrVal p.razorpay_order_id),
   ("razorpay_payment_id", optStrVal p.razorpay_payment_id),
   ("razorpay_signature", optStrVal p.razorpay_signature)]

/-- All declared `Purchase` field constraints hold of the record. -/
def goodPurchase (p : Purchase) : Bool :=
  decide ((0 : Rat) ≤ p.amount)
    && ["INR", "USD"].contains p.currency
    && ["created", "paid", "failed", "refunded"].contains p.status

/-- The `LibraryItem` record of `schemas.py`. -/
structure LibraryItem where
  user_id : String
  ebook_id : String
  last_read_at : Option Int
  progress : Rat
  deriving DecidableEq, Repr

/-- Validate/construct a `LibraryItem` from an input document,
enforcing the declared constraints of `schemas.py` in field
declaration order. -/
def validateLibraryItem (d : Doc) : Except ValidationError LibraryItem := do
  let uid ← reqStr d "user_id"
  let eid ← reqStr d "ebook_id"
  let t ← optTime d "last_read_at"
  let prog ← numRangeDefault d "progress" 0 100 0
  pure ⟨uid, eid, t, prog⟩

/-- Serialise an optional timestamp back to a document value. -/
def optTimeVal : Option Int → Value
  | none => .null
  | some t => .time t

/-- Serialise a `LibraryItem` record to a plain document. -/
def serializeLibraryItem (li : LibraryItem) : Doc :=
  [("user_id", .str li.user_id), ("ebook_id", .str li.ebook_id),
   ("last_read_at", optTimeVal li.last_read_at),
   ("progress", .num li.progress)]

/-- All declared `LibraryItem` field constraints hold of the
record. -/
def goodLibraryItem (li : LibraryItem) : Bool :=
  decide ((0 : Rat) ≤ li.progress) && decide (li.progress ≤ 100)

/-- The `SchemaInfo` wrapper of `schemas.py`: a name and an arbitrary
structured document (its `schema: dict` field is embedded as a
string-keyed mapping, the document shape the layer passes through
without inspection). -/
structure SchemaInfo where
  name : String
  schema : List (String × String)
  deriving DecidableEq, Repr

/-- Validate/construct a `SchemaInfo` from an input document. -/
def validateSchemaInfo (d : Doc) : Except ValidationError SchemaInfo := do
  let name ← reqStr d "name"
  let sch ← (match getField d "schema" with
    | some (.strDict kvs) => .ok kvs
    | some _ => .error (⟨"schema", .typeMismatch⟩ : ValidationError)
    | none => .error (⟨"schema", .missing⟩ : ValidationError))
  pure ⟨name, sch⟩

/-- A 60-character BCrypt-length password hash stand-in. -/
def pw60 : String := String.mk (List.replicate 60 'b')

/-- The spec's example `User` registration input. -/
def userDocEx : Doc :=
  [("name", .str "Ada"), ("email", .str "ada@x.com"),
   ("hashed_password", .str pw60)]

/-- The record the example `User` input constructs. -/
def userEx : User := ⟨"Ada", "ada@x.com", pw60, "user", none, true⟩

/-- A `User` input whose `name` field is the given string and whose
other fields are fixed and valid. -/
def nameDoc (n : String) : Doc :=
  [("name", .str n), ("email", .str "ada@x.com"),
   ("hashed_password", .str pw60)]

/-- A `User` input whose `email` field is the given string and whose
other fields are fixed and valid. -/
def emailDoc (e : String) : Doc :=
  [("name", .str "Ada"), ("email", .str e),
   ("hashed_password", .str pw60)]

/-- A `User` input with a given `avatar_url` value and fixed valid
remaining fields. -/
def avatarDoc (s : String) : Doc :=
  [("name", .str "Ada"), ("email", .str "ada@x.com"),
   ("hashed_password", .str pw60), ("avatar_url", .str s)]

/-- A minimal `Ebook` input: only the required fields. -/
def ebookDocEx : Doc :=
  [("title", .str "T"), ("author", .str "A"), ("price", .num 1)]

/-- The record the minimal `Ebook` input constructs. -/
def ebookEx : Ebook := ⟨"T", "A", none, 1, "INR", none, [], [], true, none⟩

/-- An `Ebook` input whose `price` is the given number. -/
def priceDoc (q : Rat) : Doc :=
  [("title", .str "T"), ("author", .str "A"), ("price", .num q)]

/-- An `Ebook` input with a given `cover_url` value. -/
def coverDoc (s : String) : Doc :=
  [("title", .str "T"), ("author", .str "A"), ("price", .num 1),
   ("cover_url", .str s)]

/-- An `Ebook` input with a given `created_by` identifier. -/
def creatorDoc (s : String) : Doc :=
  [("title", .str "T"), ("author", .str "A"), ("price", .num 1),
   ("created_by", .str s)]

/-- The spec's example `Purchase` input
`{user_id:"u1", ebook_id:"e1", amount:199.0}`. -/
def purchaseDocEx : Doc :=
  [("user_id", .str "u1"), ("ebook_id", .str "e1"),
   ("amount", .num 199.0)]

/-- The record the example `Purchase` input constructs. -/
def purchaseEx : Purchase :=
  ⟨"u1", "e1", 199, "INR", "created", none, none, none⟩

/-- A `Purchase` input whose `amount` is the given number. -/
def amountDoc (q : Rat) : Doc :=
  [("user_id", .str "u1"), ("ebook_id", .str "e1"), ("amount", .num q)]

/-- A `Purchase` input whose `status` is the given string and whose
other fields are fixed and valid. -/
def statusDoc (s : String) : Doc :=
  [("user_id", .str "u1"), ("ebook_id", .str "e1"), ("amount", .num 5),
   ("status", .str s)]

/-- A `Purchase` input with the given identifier fields. -/
def idsPurchaseDoc (s₁ s₂ : String) : Doc :=
  [("user_id", .str s₁), ("ebook_id", .str s₂), ("amount", .num 5)]

/-- A minimal `LibraryItem` input: only the required fields. -/
def libDocEx : Doc :=
  [("user_id", .str "u1"), ("ebook_id", .str "e1")]

/-- A `LibraryItem` input with the given identifier fields. -/
def idsLibDoc (s₁ s₂ : String) : Doc :=
  [("user_id", .str s₁), ("ebook_id", .str s₂)]

/-- A `LibraryItem` input whose `progress` is the given number. -/
def progressDoc (q : Rat) : Doc :=
  [("user_id", .str "u1"), ("ebook_id", .str "e1"),
   ("progress", .num q)]

/-- A one-character, a 2-character, a 120-character and a
121-character name, for the boundary tests. -/
def nameOfLen (n : Nat) : String := String.mk (List.replicate n 'a')

/-- The record the `idsPurchaseDoc "u1" "e1"` input constructs. -/
def purchase5 : Purchase :=
  ⟨"u1", "e1", 5, "INR", "created", none, none, none⟩

/-- The record the minimal `LibraryItem` input constructs. -/
def libEx : LibraryItem := ⟨"u1", "e1", none, 0⟩

theorem bind_ok {α β : Type} (x : Except ValidationError α)
    (f : α → Except ValidationError β) (b : β)
    (h : (x >>= f) = .ok b) : ∃ a, x = .ok a ∧ f a = .ok b := by
  cases x <;> simp_all [Bind.bind, Except.bind]

theorem reqStrLen_ok (d : Doc) (k : String) (lo hi : Nat) (s : String)
    (h : reqStrLen d k lo hi = .ok s) : lenOk s lo hi = true := by
  unfold reqStrLen at h
  (repeat split at h) <;> (try cases h) <;> simp_all

theorem reqEmail_ok (d : Doc) (k : String) (s : String)
    (h : reqEmail d k = .ok s) : isValidEmail s = true := by
  unfold reqEmail at h
  (repeat split at h) <;> (try cases h) <;> simp_all

theorem enumDefault_ok (d : Doc) (k : String) (allowed : List String)
    (dflt : String) (s : String) (hd : allowed.contains dflt = true)
    (h : enumDefault d k allowed dflt = .ok s) :
    allowed.contains s = true := by
  unfold enumDefault at h
  (repeat split at h) <;> (try cases h) <;> simp_all

theorem reqNumGe_ok (d : Doc) (k : String) (lo : Rat) (q : Rat)
    (h : reqNumGe d k lo = .ok q) : lo ≤ q := by
  unfold reqNumGe at h
  (repeat split at h) <;> (try cases h) <;> simp_all

theorem numRangeDefault_ok (d : Doc) (k : String) (lo hi dflt : Rat)
    (q : Rat) (hlo : lo ≤ dflt) (hhi : dflt ≤ hi)
    (h : numRangeDefault d k lo hi dflt = .ok q) : lo ≤ q ∧ q ≤ hi := by
  unfold numRangeDefault at h
  (repeat split at h) <;> (try cases h) <;> simp_all

theorem optStrLen_ok (d : Doc) (k : String) (hi : Nat) (o : Option String)
    (h : optStrLen d k hi = .ok o) :
    o.all (fun s => decide (s.length ≤ hi)) = true := by
  unfold optStrLen at h
  (repeat split at h) <;> (try cases h) <;> simp_all [Option.all]

theorem optUrl_ok (d : Doc) (k : String) (o : Option String)
    (h : optUrl d k = .ok o) : o.all isValidHttpUrl = true := by
  unfold optUrl at h
  (repeat split at h) <;> (try cases h) <;> simp_all [Option.all]

theorem urlDictDefault_ok (d : Doc) (k : String)
    (kvs : List (String × String)) (h : urlDictDefault d k = .ok kvs) :
    kvs.all (fun kv => isValidHttpUrl kv.2) = true := by
  unfold urlDictDefault at h
  (repeat split at h) <;> (try cases h) <;> simp_all <;> assumption

theorem reqStrLen_lookup (d : Doc) (k : String) (lo hi : Nat) (s : String)
    (hg : getField d k = some (.str s)) (hl : lenOk s lo hi = true) :
    reqStrLen d k lo hi = .ok s := by
  simp [reqStrLen, hg, hl]

theorem reqEmail_lookup (d : Doc) (k : String) (s : String)
    (hg : getField d k = some (.str s)) (he : isValidEmail s = true) :
    reqEmail d k = .ok s := by
  simp [reqEmail, hg, he]

theorem reqStr_lookup (d : Doc) (k : String) (s : String)
    (hg : getField d k = some (.str s)) : reqStr d k = .ok s := by
  simp [reqStr, hg]

theorem enumDefault_lookup (d : Doc) (k : String) (allowed : List String)
    (dflt : String) (s : String) (hg : getField d k = some (.str s))
    (hc : s ∈ allowed) : enumDefault d k allowed dflt = .ok s := by
  simp [enumDefault, hg, hc]

theorem boolDefault_lookup (d : Doc) (k : String) (dflt : Bool) (b : Bool)
    (hg : getField d k = some (.bool b)) : boolDefault d k dflt = .ok b := by
  simp [boolDefault, hg]

theorem optUrl_serial (d : Doc) (k : String) (o : Option String)
    (hg : getField d k = some (optStrVal o))
    (ha : o.all isValidHttpUrl = true) : optUrl d k = .ok o := by
  cases o <;> simp_all [optUrl, optStrVal, Option.all]

theorem optStr_serial (d : Doc) (k : String) (o : Option String)
    (hg : getField d k = some (optStrVal o)) : optStr d k = .ok o := by
  cases o <;> simp_all [optStr, optStrVal]

theorem optStrLen_serial (d : Doc) (k : String) (hi : Nat)
    (o : Option String) (hg : getField d k = some (optStrVal o))
    (ha : o.all (fun s => decide (s.length ≤ hi)) = true) :
    optStrLen d k hi = .ok o := by
  cases o <;> simp_all [optStrLen, optStrVal, Option.all]

theorem optTime_serial (d : Doc) (k : String) (o : Option Int)
    (hg : getField d k = some (optTimeVal o)) : optTime d k = .ok o := by
  cases o <;> simp_all [optTime, optTimeVal]

theorem reqNumGe_lookup (d : Doc) (k : String) (lo : Rat) (q : Rat)
    (hg : getField d k = some (.num q)) (hl : lo ≤ q) :
    reqNumGe d k lo = .ok q := by
  simp [reqNumGe, hg, hl]

theorem numRangeDefault_lookup (d : Doc) (k : String) (lo hi dflt : Rat)
    (q : Rat) (hg : getField d k = some (.num q)) (hl : lo ≤ q)
    (hh : q ≤ hi) : numRangeDefault d k lo hi dflt = .ok q := by
  simp [numRangeDefault, hg, hl, hh]

theorem urlDictDefault_serial (d : Doc) (k : String)
    (kvs : List (String × String)) (hg : getField d k = some (.strDict kvs))
    (ha : kvs.all (fun kv => isValidHttpUrl kv.2) = true) :
    urlDictDefault d k = .ok kvs := by
  simp [urlDictDefault, hg, ha]

theorem strListDefault_serial (d : Doc) (k : String) (xs : List String)
    (hg : getField d k = some (.strList xs)) :
    strListDefault d k = .ok xs := by
  simp [strListDefault, hg]

theorem validateUser_ok_good (d : Doc) (u : User)
    (h : validateUser d = .ok u) : goodUser u = true := by
  unfold validateUser at h
  obtain ⟨name, h1, h⟩ := bind_ok _ _ _ h
  obtain ⟨email, h2, h⟩ := bind_ok _ _ _ h
  obtain ⟨hp, h3, h⟩ := bind_ok _ _ _ h
  obtain ⟨role, h4, h⟩ := bind_ok _ _ _ h
  obtain ⟨av, h5, h⟩ := bind_ok _ _ _ h
  obtain ⟨act, h6, h⟩ := bind_ok _ _ _ h
  have hu : u = ⟨name, email, hp, role, av, act⟩ := by
    simpa [pure, Except.pure, eq_comm] using h
  subst hu
  simp only [goodUser, Bool.and_eq_true]
  exact ⟨⟨⟨⟨reqStrLen_ok _ _ _ _ _ h1, reqEmail_ok _ _ _ h2⟩,
    reqStrLen_ok _ _ _ _ _ h3⟩,
    enumDefault_ok _ _ _ _ _ (by decide) h4⟩, optUrl_ok _ _ _ h5⟩

theorem validateUser_serialize (u : User) (h : goodUser u = true) :
    validateUser (serializeUser u) = .ok u := by
  obtain ⟨⟨⟨⟨h1, h2⟩, h3⟩, h4⟩, h5⟩ :=
    (by simpa only [goodUser, Bool.and_eq_true] using h :
      (((lenOk u.name 2 120 = true ∧ isValidEmail u.email = true) ∧
        lenOk u.hashed_password 60 200 = true) ∧
        (["user", "admin"].contains u.role) = true) ∧
        u.avatar_url.all isValidHttpUrl = true)
  have g1 : getField (serializeUser u) "name" = some (.str u.name) := rfl
  have g2 : getField (serializeUser u) "email" = some (.str u.email) := rfl
  have g3 : getField (serializeUser u) "hashed_password" =
      some (.str u.hashed_password) := rfl
  have g4 : getField (serializeUser u) "role" = some (.str u.role) := rfl
  have g5 : getField (serializeUser u) "avatar_url" =
      some (optStrVal u.avatar_url) := rfl
  have g6 : getField (serializeUser u) "is_active" =
      some (.bool u.is_active) := rfl
  unfold validateUser
  rw [reqStrLen_lookup _ _ _ _ _ g1 h1, reqEmail_lookup _ _ _ g2 h2,
    reqStrLen_lookup _ _ _ _ _ g3 h3,
    enumDefault_lookup _ _ _ _ _ g4 (by simpa using h4),
    optUrl_serial _ _ _ g5 h5, boolDefault_lookup _ _ _ _ g6]
  rfl

theorem validateEbook_ok_good (d : Doc) (e : Ebook)
    (h : validateEbook d = .ok e) : goodEbook e = true := by
  unfold validateEbook at h
  obtain ⟨title, h1, h⟩ := bind_ok _ _ _ h
  obtain ⟨author, h2, h⟩ := bind_ok _ _ _ h
  obtain ⟨descr, h3, h⟩ := bind_ok _ _ _ h
  obtain ⟨price, h4, h⟩ := bind_ok _ _ _ h
  obtain ⟨curr, h5, h⟩ := bind_ok _ _ _ h
  obtain ⟨cover, h6, h⟩ := bind_ok _ _ _ h
  obtain ⟨urls, h7, h⟩ := bind_ok _ _ _ h
  obtain ⟨cats, h8, h⟩ := bind_ok _ _ _ h
  obtain ⟨pub, h9, h⟩ := bind_ok _ _ _ h
  obtain ⟨creator, h10, h⟩ := bind_ok _ _ _ h
  have he : e = ⟨title, author, descr, price, curr, cover, urls, cats,
      pub, creator⟩ := by
    simpa [pure, Except.pure, eq_comm] using h
  subst he
  simp only [goodEbook, Bool.and_eq_true]
  exact ⟨⟨⟨⟨⟨⟨reqStrLen_ok _ _ _ _ _ h1, reqStrLen_ok _ _ _ _ _ h2⟩,
    optStrLen_ok _ _ _ _ h3⟩, decide_eq_true (reqNumGe_ok _ _ _ _ h4)⟩,
    enumDefault_ok _ _ _ _ _ (by decide) h5⟩, optUrl_ok _ _ _ h6⟩,
    urlDictDefault_ok _ _ _ h7⟩

theorem validateEbook_serialize (e : Ebook) (h : goodEbook e = true) :
    validateEbook (serializeEbook e) = .ok e := by
  obtain ⟨⟨⟨⟨⟨⟨h1, h2⟩, h3⟩, h4⟩, h5⟩, h6⟩, h7⟩ :=
    (by simpa only [goodEbook, Bool.and_eq_true] using h :
      (((((lenOk e.title 1 200 = true ∧ lenOk e.author 1 120 = true) ∧
        e.description.all (fun s => decide (s.length ≤ 5000)) = true) ∧
        decide ((0 : Rat) ≤ e.price) = true) ∧
        (["INR", "USD"].contains e.currency) = true) ∧
        e.cover_url.all isValidHttpUrl = true) ∧
        e.file_urls.all (fun kv => isValidHttpUrl kv.2) = true)
  have g1 : getField (serializeEbook e) "title" = some (.str e.title) := rfl
  have g2 : getField (serializeEbook e) "author" =
      some (.str e.author) := rfl
  have g3 : getField (serializeEbook e) "description" =
      some (optStrVal e.description) := rfl
  have g4 : getField (serializeEbook e) "price" = some (.num e.price) := rfl
  have g5 : getField (serializeEbook e) "currency" =
      some (.str e.currency) := rfl
  have g6 : getField (serializeEbook e) "cover_url" =
      some (optStrVal e.cover_url) := rfl
  have g7 : getField (serializeEbook e) "file_urls" =
      some (.strDict e.file_urls) := rfl
  have g8 : getField (serializeEbook e) "categories" =
      some (.strList e.categories) := rfl
  have g9 : getField (serializeEbook e) "published" =
      some (.bool e.published) := rfl
  have g10 : getField (serializeEbook e) "created_by" =
      some (optStrVal e.created_by) := rfl
  unfold validateEbook
  rw [reqStrLen_lookup _ _ _ _ _ g1 h1, reqStrLen_lookup _ _ _ _ _ g2 h2,
    optStrLen_serial _ _ _ _ g3 h3,
    reqNumGe_lookup _ _ _ _ g4 (of_decide_eq_true h4),
    enumDefault_lookup _ _ _ _ _ g5 (by simpa using h5),
    optUrl_serial _ _ _ g6 h6, urlDictDefault_serial _ _ _ g7 h7,
    strListDefault_serial _ _ _ g8, boolDefault_lookup _ _ _ _ g9,
    optStr_serial _ _ _ g10]
  rfl

theorem validatePurchase_ok_good (d : Doc) (p : Purchase)
    (h : validatePurchase d = .ok p) : goodPurchase p = true := by
  unfold validatePurchase at h
  obtain ⟨uid, h1, h⟩ := bind_ok _ _ _ h
  obtain ⟨eid, h2, h⟩ := bind_ok _ _ _ h
  obtain ⟨amount, h3, h⟩ := bind_ok _ _ _ h
  obtain ⟨curr, h4, h⟩ := bind_ok _ _ _ h
  obtain ⟨status, h5, h⟩ := bind_ok _ _ _ h
  obtain ⟨oid, h6, h⟩ := bind_ok _ _ _ h
  obtain ⟨pid, h7, h⟩ := bind_ok _ _ _ h
  obtain ⟨sig, h8, h⟩ := bind_ok _ _ _ h
  have hp : p = ⟨uid, eid, amount, curr, status, oid, pid, sig⟩ := by
    simpa [pure, Except.pure, eq_comm] using h
  subst hp
  simp only [goodPurchase, Bool.and_eq_true]
  exact ⟨⟨decide_eq_true (reqNumGe_ok _ _ _ _ h3),
    enumDefault_ok _ _ _ _ _ (by decide) h4⟩,
    enumDefault_ok _ _ _ _ _ (by decide) h5⟩

theorem validatePurchase_serialize (p : Purchase)
    (h : goodPurchase p = true) :
    validatePurchase (serializePurchase p) = .ok p := by
  obtain ⟨⟨h1, h2⟩, h3⟩ :=
    (by simpa only [goodPurchase, Bool.and_eq_true] using h :
      (decide ((0 : Rat) ≤ p.amount) = true ∧
        (["INR", "USD"].contains p.currency) = true) ∧
        (["created", "paid", "failed", "refunded"].contains p.status)
          = true)
  have g1 : getField (serializePurchase p) "user_id" =
      some (.str p.user_id) := rfl
  have g2 : getField (serializePurchase p) "ebook_id" =
      some (.str p.ebook_id) := rfl
  have g3 : getField (serializePurchase p) "amount" =
      some (.num p.amount) := rfl
  have g4 : getField (serializePurchase p) "currency" =
      some (.str p.currency) := rfl
  have g5 : getField (serializePurchase p) "status" =
      some (.str p.status) := rfl
  have g6 : getField (serializePurchase p) "razorpay_order_id" =
      some (optStrVal p.razorpay_order_id) := rfl
  have g7 : getField (serializePurchase p) "razorpay_payment_id" =
      some (optStrVal p.razorpay_payment_id) := rfl
  have g8 : getField (serializePurchase p) "razorpay_signature" =
      some (optStrVal p.razorpay_signature) := rfl
  unfold validatePurchase
  rw [reqStr_lookup _ _ _ g1, reqStr_lookup _ _ _ g2,
    reqNumGe_lookup _ _ _ _ g3 (of_decide_eq_true h1),
    enumDefault_lookup _ _ _ _ _ g4 (by simpa using h2),
    enumDefault_lookup _ _ _ _ _ g5 (by simpa using h3),
    optStr_serial _ _ _ g6, optStr_serial _ _ _ g7,
    optStr_serial _ _ _ g8]
  rfl

theorem validateLibraryItem_ok_good (d : Doc) (li : LibraryItem)
    (h : validateLibraryItem d = .ok li) : goodLibraryItem li = true := by
  unfold validateLibraryItem at h
  obtain ⟨uid, h1, h⟩ := bind_ok _ _ _ h
  obtain ⟨eid, h2, h⟩ := bind_ok _ _ _ h
  obtain ⟨t, h3, h⟩ := bind_ok _ _ _ h
  obtain ⟨prog, h4, h⟩ := bind_ok _ _ _ h
  have hli : li = ⟨uid, eid, t, prog⟩ := by
    simpa [pure, Except.pure, eq_comm] using h
  subst hli
  obtain ⟨hl, hh⟩ := numRangeDefault_ok _ _ _ _ _ _ (by norm_num)
    (by norm_num) h4
  simp only [goodLibraryItem, Bool.and_eq_true]
  exact ⟨decide_eq_true hl, decide_eq_true hh⟩

theorem validateLibraryItem_serialize (li : LibraryItem)
    (h : goodLibraryItem li = true) :
    validateLibraryItem (serializeLibraryItem li) = .ok li := by
  obtain ⟨h1, h2⟩ :=
    (by simpa only [goodLibraryItem, Bool.and_eq_true] using h :
      decide ((0 : Rat) ≤ li.progress) = true ∧
        decide (li.progress ≤ 100) = true)
  have g1 : getField (serializeLibraryItem li) "user_id" =
      some (.str li.user_id) := rfl
  have g2 : getField (serializeLibraryItem li) "ebook_id" =
      some (.str li.ebook_id) := rfl
  have g3 : getField (serializeLibraryItem li) "last_read_at" =
      some (optTimeVal li.last_read_at) := rfl
  have g4 : getField (serializeLibraryItem li) "progress" =
      some (.num li.progress) := rfl
  unfold validateLibraryItem
  rw [reqStr_lookup _ _ _ g1, reqStr_lookup _ _ _ g2,
    optTime_serial _ _ _ g3,
    numRangeDefault_lookup _ _ _ _ _ _ g4 (of_decide_eq_true h1)
      (of_decide_eq_true h2)]
  rfl

theorem splitAtChar_not_mem (c : Char) (cs : List Char) (h : c ∉ cs) :
    splitAtChar c cs = none := by
  induction cs with
  | nil => rfl
  | cons x xs ih =>
    obtain ⟨h1, h2⟩ := not_or.mp (by simpa using h)
    simp only [splitAtChar]
    rw [if_neg (Ne.symm h1), ih h2]

theorem isValidEmail_no_at (e : String) (h : '@' ∉ e.toList) :
    isValidEmail e = false := by
  unfold isValidEmail
  rw [splitAtChar_not_mem _ _ h]

/-- C1: for every input document accepted by Validate/construct, and
likewise for every record all of whose fields meet the declared
constraints, serialising the constructed record and re-validating the
serialised document succeeds and yields the same record
field-for-field, for each of the four domain record types. -/
theorem roundtrip_serialize_validate :
    (∀ u : User, goodUser u = true →
      validateUser (serializeUser u) = Except.ok u) ∧
    (∀ (d : Doc) (u : User), validateUser d = Except.ok u →
      validateUser (serializeUser u) = Except.ok u) ∧
    (∀ e : Ebook, goodEbook e = true →
      validateEbook (serializeEbook e) = Except.ok e) ∧
    (∀ (d : Doc) (e : Ebook), validateEbook d = Except.ok e →
      validateEbook (serializeEbook e) = Except.ok e) ∧
    (∀ p : Purchase, goodPurchase p = true →
      validatePurchase (serializePurchase p) = Except.ok p) ∧
    (∀ (d : Doc) (p : Purchase), validatePurchase d = Except.ok p →
      validatePurchase (serializePurchase p) = Except.ok p) ∧
    (∀ li : LibraryItem, goodLibraryItem li = true →
      validateLibraryItem (serializeLibraryItem li) = Except.ok li) ∧
    (∀ (d : Doc) (li : LibraryItem), validateLibraryItem d = Except.ok li →
      validateLibraryItem (serializeLibraryItem li) = Except.ok li) :=
  ⟨fun u h => validateUser_serialize u h,
   fun d u h => validateUser_serialize u (validateUser_ok_good d u h),
   fun e h => validateEbook_serialize e h,
   fun d e h => validateEbook_serialize e (validateEbook_ok_good d e h),
   fun p h => validatePurchase_serialize p h,
   fun d p h => validatePurchase_serialize p (validatePurchase_ok_good d p h),
   fun li h => validateLibraryItem_serialize li h,
   fun d li h =>
     validateLibraryItem_serialize li (validateLibraryItem_ok_good d li h)⟩

/-- Witness for C1: the round trip evaluated on one concrete record of
each of the four types. -/
theorem roundtrip_serialize_validate_witness :
    validateUser (serializeUser userEx) = Except.ok userEx ∧
    validateEbook (serializeEbook ebookEx) = Except.ok ebookEx ∧
    validatePurchase (serializePurchase purchase5) = Except.ok purchase5 ∧
    validateLibraryItem (serializeLibraryItem libEx) = Except.ok libEx :=
  ⟨roundtrip_serialize_validate.1 userEx (by decide),
   roundtrip_serialize_validate.2.2.1 ebookEx (by decide),
   roundtrip_serialize_validate.2.2.2.2.1 purchase5 (by decide),
   roundtrip_serialize_validate.2.2.2.2.2.2.1 libEx (by decide)⟩

/-- C2: each of the four tokens created, paid, failed, refunded is
accepted as `Purchase.status`, and every other string supplied as
`status` is rejected with a validation failure on the `status`
field. -/
theorem purchase_status_enum :
    validatePurchase (statusDoc "created") =
      Except.ok ⟨"u1", "e1", 5, "INR", "created", none, none, none⟩ ∧
    validatePurchase (statusDoc "paid") =
      Except.ok ⟨"u1", "e1", 5, "INR", "paid", none, none, none⟩ ∧
    validatePurchase (statusDoc "failed") =
      Except.ok ⟨"u1", "e1", 5, "INR", "failed", none, none, none⟩ ∧
    validatePurchase (statusDoc "refunded") =
      Except.ok ⟨"u1", "e1", 5, "INR", "refunded", none, none, none⟩ ∧
    (∀ s : String,
      s ∉ (["created", "paid", "failed", "refunded"] : List String) →
      validatePurchase (statusDoc s) =
        Except.error ⟨"status", .enumViolation⟩) := by
  refine ⟨by decide, by decide, by decide, by decide, fun s hs => ?_⟩
  have e1 : reqStr (statusDoc s) "user_id" = Except.ok "u1" := rfl
  have e2 : reqStr (statusDoc s) "ebook_id" = Except.ok "e1" := rfl
  have e3 : reqNumGe (statusDoc s) "amount" 0 = Except.ok 5 := rfl
  have e4 : enumDefault (statusDoc s) "currency" ["INR", "USD"] "INR" =
      Except.ok "INR" := rfl
  have g : getField (statusDoc s) "status" = some (.str s) := rfl
  have e5 : enumDefault (statusDoc s) "status"
      ["created", "paid", "failed", "refunded"] "created" =
      Except.error ⟨"status", .enumViolation⟩ := by
    simp [enumDefault, g, hs]
  simp only [validatePurchase, e1, e2, e3, e4, e5, Bind.bind, Except.bind]

/-- Witness for C2: the fifth token pending is rejected. -/
theorem purchase_status_enum_witness :
    validatePurchase (statusDoc "pending") =
      Except.error ⟨"status", .enumViolation⟩ :=
  purchase_status_enum.2.2.2.2 "pending" (by decide)

/-- C3: every field with a declared default is populated with that
default when omitted from the input: `role` defaults to user,
`is_active` to true (the `User` example), `currency` to INR,
`published` to true (the minimal `Ebook` input), `status` to created
with all three razorpay fields `None` (the spec's example `Purchase`
input with `amount` 199.0), and `progress` to 0 (the minimal
`LibraryItem` input). -/
theorem defaults_applied :
    validateUser userDocEx = Except.ok userEx ∧
    validateEbook ebookDocEx = Except.ok ebookEx ∧
    validatePurchase purchaseDocEx = Except.ok purchaseEx ∧
    validateLibraryItem libDocEx = Except.ok libEx := by
  refine ⟨by decide, by decide, ?_, by decide⟩
  have h : (199.0 : Rat) = 199 := by norm_num
  show validatePurchase
      [("user_id", .str "u1"), ("ebook_id", .str "e1"),
       ("amount", .num 199.0)] = Except.ok purchaseEx
  rw [h]
  rfl

set_option maxRecDepth 4096 in
/-- C4: the `User.name` length bound [2,120] is enforced inclusively
at both ends: length 1 fails, lengths 2 and 120 succeed, length 121
fails (all other fields held valid). -/
theorem user_name_length_bounds :
    validateUser (nameDoc (nameOfLen 1)) =
      Except.error ⟨"name", .boundViolation⟩ ∧
    validateUser (nameDoc (nameOfLen 2)) =
      Except.ok ⟨nameOfLen 2, "ada@x.com", pw60, "user", none, true⟩ ∧
    validateUser (nameDoc (nameOfLen 120)) =
      Except.ok ⟨nameOfLen 120, "ada@x.com", pw60, "user", none, true⟩ ∧
    validateUser (nameDoc (nameOfLen 121)) =
      Except.error ⟨"name", .boundViolation⟩ :=
  ⟨by decide, by decide, by decide, by decide⟩

/-- C5: `Ebook.price` and `Purchase.amount` accept every non-negative
number including 0 and reject every negative number; and
`LibraryItem.progress` accepts every number in the closed interval
[0,100] and rejects every number below 0 or above 100 (other fields
held valid). -/
theorem numeric_bounds :
    (∀ q : Rat, 0 ≤ q → validateEbook (priceDoc q) =
      Except.ok ⟨"T", "A", none, q, "INR", none, [], [], true, none⟩) ∧
    (∀ q : Rat, q < 0 → validateEbook (priceDoc q) =
      Except.error ⟨"price", .boundViolation⟩) ∧
    (∀ q : Rat, 0 ≤ q → validatePurchase (amountDoc q) =
      Except.ok ⟨"u1", "e1", q, "INR", "created", none, none, none⟩) ∧
    (∀ q : Rat, q < 0 → validatePurchase (amountDoc q) =
      Except.error ⟨"amount", .boundViolation⟩) ∧
    (∀ q : Rat, 0 ≤ q → q ≤ 100 → validateLibraryItem (progressDoc q) =
      Except.ok ⟨"u1", "e1", none, q⟩) ∧
    (∀ q : Rat, q < 0 → validateLibraryItem (progressDoc q) =
      Except.error ⟨"progress", .boundViolation⟩) ∧
    (∀ q : Rat, 100 < q → validateLibraryItem (progressDoc q) =
      Except.error ⟨"progress", .boundViolation⟩) := by
  refine ⟨fun q h => ?_, fun q h => ?_, fun q h => ?_, fun q h => ?_,
    fun q h1 h2 => ?_, fun q h => ?_, fun q h => ?_⟩
  · have e : reqNumGe (priceDoc q) "price" 0 = Except.ok q :=
      reqNumGe_lookup _ _ _ _ rfl h
    simp only [validateEbook, e, Bind.bind, Except.bind]
    rfl
  · have hd : decide ((0 : Rat) ≤ q) = false :=
      decide_eq_false (not_le.mpr h)
    have e : reqNumGe (priceDoc q) "price" 0 =
        Except.error ⟨"price", .boundViolation⟩ := by
      have g : getField (priceDoc q) "price" = some (.num q) := rfl
      simp [reqNumGe, g, hd]
    have e1 : reqStrLen (priceDoc q) "title" 1 200 = Except.ok "T" := rfl
    have e2 : reqStrLen (priceDoc q) "author" 1 120 = Except.ok "A" := rfl
    have e3 : optStrLen (priceDoc q) "description" 5000 =
        Except.ok none := rfl
    simp only [validateEbook, e1, e2, e3, e, Bind.bind, Except.bind]
  · have e : reqNumGe (amountDoc q) "amount" 0 = Except.ok q :=
      reqNumGe_lookup _ _ _ _ rfl h
    simp only [validatePurchase, e, Bind.bind, Except.bind]
    rfl
  · have hd : decide ((0 : Rat) ≤ q) = false :=
      decide_eq_false (not_le.mpr h)
    have e : reqNumGe (amountDoc q) "amount" 0 =
        Except.error ⟨"amount", .boundViolation⟩ := by
      have g : getField (amountDoc q) "amount" = some (.num q) := rfl
      simp [reqNumGe, g, hd]
    have e1 : reqStr (amountDoc q) "user_id" = Except.ok "u1" := rfl
    have e2 : reqStr (amountDoc q) "ebook_id" = Except.ok "e1" := rfl
    simp only [validatePurchase, e1, e2, e, Bind.bind, Except.bind]
  · have e : numRangeDefault (progressDoc q) "progress" 0 100 0 =
        Except.ok q := numRangeDefault_lookup _ _ _ _ _ _ rfl h1 h2
    simp only [validateLibraryItem, e, Bind.bind, Except.bind]
    rfl
  · have hd : (decide ((0 : Rat) ≤ q) && decide (q ≤ 100)) = false := by
      simp [decide_eq_false (not_le.mpr h)]
    have e : numRangeDefault (progressDoc q) "progress" 0 100 0 =
        Except.error ⟨"progress", .boundViolation⟩ := by
      have g : getField (progressDoc q) "progress" = some (.num q) := rfl
      simp only [numRangeDefault, g]
      rw [hd]
      rfl
    have e1 : reqStr (progressDoc q) "user_id" = Except.ok "u1" := rfl
    have e2 : reqStr (progressDoc q) "ebook_id" = Except.ok "e1" := rfl
    have e3 : optTime (progressDoc q) "last_read_at" = Except.ok none := rfl
    simp only [validateLibraryItem, e1, e2, e3, e, Bind.bind, Except.bind]
  · have hd : (decide ((0 : Rat) ≤ q) && decide (q ≤ 100)) = false := by
      simp [decide_eq_false (not_le.mpr h)]
    have e : numRangeDefault (progressDoc q) "progress" 0 100 0 =
        Except.error ⟨"progress", .boundViolation⟩ := by
      have g : getField (progressDoc q) "progress" = some (.num q) := rfl
      simp only [numRangeDefault, g]
      rw [hd]
      rfl
    have e1 : reqStr (progressDoc q) "user_id" = Except.ok "u1" := rfl
    have e2 : reqStr (progressDoc q) "ebook_id" = Except.ok "e1" := rfl
    have e3 : optTime (progressDoc q) "last_read_at" = Except.ok none := rfl
    simp only [validateLibraryItem, e1, e2, e3, e, Bind.bind, Except.bind]

/-- Witness for C5: the bounds evaluated at 0, -1, 100 and 101. -/
theorem numeric_bounds_witness :
    validateEbook (priceDoc 0) =
      Except.ok ⟨"T", "A", none, 0, "INR", none, [], [], true, none⟩ ∧
    validateEbook (priceDoc (-1)) =
      Except.error ⟨"price", .boundViolation⟩ ∧
    validatePurchase (amountDoc 0) =
      Except.ok ⟨"u1", "e1", 0, "INR", "created", none, none, none⟩ ∧
    validatePurchase (amountDoc (-1)) =
      Except.error ⟨"amount", .boundViolation⟩ ∧
    validateLibraryItem (progressDoc 100) =
      Except.ok ⟨"u1", "e1", none, 100⟩ ∧
    validateLibraryItem (progressDoc (-1)) =
      Except.error ⟨"progress", .boundViolation⟩ ∧
    validateLibraryItem (progressDoc 101) =
      Except.error ⟨"progress", .boundViolation⟩ :=
  ⟨numeric_bounds.1 0 (by norm_num),
   numeric_bounds.2.1 (-1) (by norm_num),
   numeric_bounds.2.2.1 0 (by norm_num),
   numeric_bounds.2.2.2.1 (-1) (by norm_num),
   numeric_bounds.2.2.2.2.1 100 (by norm_num) (by norm_num),
   numeric_bounds.2.2.2.2.2.1 (-1) (by norm_num),
   numeric_bounds.2.2.2.2.2.2 101 (by norm_num)⟩

/-- C6: a `User.email` value containing no at-sign is rejected as a
malformed email, and the literal not-a-url supplied as
`User.avatar_url` or `Ebook.cover_url` is rejected as a malformed
URL. -/
theorem malformed_email_and_url :
    (∀ e : String, '@' ∉ e.toList → validateUser (emailDoc e) =
      Except.error ⟨"email", .malformedEmail⟩) ∧
    validateUser (avatarDoc "not-a-url") =
      Except.error ⟨"avatar_url", .malformedUrl⟩ ∧
    validateEbook (coverDoc "not-a-url") =
      Except.error ⟨"cover_url", .malformedUrl⟩ := by
  refine ⟨fun e h => ?_, by decide, by decide⟩
  have hm : isValidEmail e = false := isValidEmail_no_at e h
  have e1 : reqStrLen (emailDoc e) "name" 2 120 = Except.ok "Ada" := rfl
  have g : getField (emailDoc e) "email" = some (.str e) := rfl
  have e2 : reqEmail (emailDoc e) "email" =
      Except.error ⟨"email", .malformedEmail⟩ := by
    simp [reqEmail, g, hm]
  simp only [validateUser, e1, e2, Bind.bind, Except.bind]

/-- Witness for C6: an email value with no at-sign is rejected. -/
theorem malformed_email_and_url_witness :
    validateUser (emailDoc "nodomain.com") =
      Except.error ⟨"email", .malformedEmail⟩ :=
  malformed_email_and_url.1 "nodomain.com" (by decide)

/-- C7: validation is all-or-nothing: whenever construction of a
record returns at all (rather than a `ValidationError`), every field
of the returned record satisfies its declared constraint — there is no
partially accepted record. -/
theorem validation_all_or_nothing :
    (∀ (d : Doc) (u : User), validateUser d = Except.ok u →
      goodUser u = true) ∧
    (∀ (d : Doc) (e : Ebook), validateEbook d = Except.ok e →
      goodEbook e = true) ∧
    (∀ (d : Doc) (p : Purchase), validatePurchase d = Except.ok p →
      goodPurchase p = true) ∧
    (∀ (d : Doc) (li : LibraryItem), validateLibraryItem d = Except.ok li →
      goodLibraryItem li = true) :=
  ⟨validateUser_ok_good, validateEbook_ok_good,
   validatePurchase_ok_good, validateLibraryItem_ok_good⟩

/-- Witness for C7: all-or-nothing evaluated on one accepted document
of each record type. -/
theorem validation_all_or_nothing_witness :
    goodUser userEx = true ∧ goodEbook ebookEx = true ∧
    goodPurchase purchase5 = true ∧ goodLibraryItem libEx = true :=
  ⟨validation_all_or_nothing.1 userDocEx userEx (by decide),
   validation_all_or_nothing.2.1 ebookDocEx ebookEx (by decide),
   validation_all_or_nothing.2.2.1 (idsPurchaseDoc "u1" "e1") purchase5
     (by decide),
   validation_all_or_nothing.2.2.2 libDocEx libEx (by decide)⟩

/-- C8: validation of each record type is a pure, deterministic
function of its input document: in any batch of validations, the
outcome at each position is exactly the validation function applied to
the input at that position, independent of the other validations in
the batch. -/
theorem validation_deterministic :
    (∀ (ds : List Doc) (i : Nat) (h : i < ds.length),
      (ds.map validateUser).get ⟨i, by simpa using h⟩ =
        validateUser (ds.get ⟨i, h⟩)) ∧
    (∀ (ds : List Doc) (i : Nat) (h : i < ds.length),
      (ds.map validateEbook).get ⟨i, by simpa using h⟩ =
        validateEbook (ds.get ⟨i, h⟩)) ∧
    (∀ (ds : List Doc) (i : Nat) (h : i < ds.length),
      (ds.map validatePurchase).get ⟨i, by simpa using h⟩ =
        validatePurchase (ds.get ⟨i, h⟩)) ∧
    (∀ (ds : List Doc) (i : Nat) (h : i < ds.length),
      (ds.map validateLibraryItem).get ⟨i, by simpa using h⟩ =
        validateLibraryItem (ds.get ⟨i, h⟩)) ∧
    (∀ (ds : List Doc) (i : Nat) (h : i < ds.length),
      (ds.map validateSchemaInfo).get ⟨i, by simpa using h⟩ =
        validateSchemaInfo (ds.get ⟨i, h⟩)) := by
  refine ⟨fun ds i h => ?_, fun ds i h => ?_, fun ds i h => ?_,
    fun ds i h => ?_, fun ds i h => ?_⟩ <;>
    simp [List.get_eq_getElem, List.getElem_map]

/-- Witness for C8: batch independence evaluated on a concrete
two-document batch. -/
theorem validation_deterministic_witness :
    (([userDocEx, userDocEx] : List Doc).map validateUser).get
        ⟨0, by simp⟩ =
      validateUser (([userDocEx, userDocEx] : List Doc).get
        ⟨0, by simp⟩) ∧
    (([ebookDocEx] : List Doc).map validateEbook).get ⟨0, by simp⟩ =
      validateEbook (([ebookDocEx] : List Doc).get ⟨0, by simp⟩) ∧
    (([purchaseDocEx] : List Doc).map validatePurchase).get
        ⟨0, by simp⟩ =
      validatePurchase (([purchaseDocEx] : List Doc).get ⟨0, by simp⟩) ∧
    (([libDocEx] : List Doc).map validateLibraryItem).get ⟨0, by simp⟩ =
      validateLibraryItem (([libDocEx] : List Doc).get ⟨0, by simp⟩) ∧
    (([libDocEx] : List Doc).map validateSchemaInfo).get ⟨0, by simp⟩ =
      validateSchemaInfo (([libDocEx] : List Doc).get ⟨0, by simp⟩) :=
  ⟨validation_deterministic.1 [userDocEx, userDocEx] 0 (by simp),
   validation_deterministic.2.1 [ebookDocEx] 0 (by simp),
   validation_deterministic.2.2.1 [purchaseDocEx] 0 (by simp),
   validation_deterministic.2.2.2.1 [libDocEx] 0 (by simp),
   validation_deterministic.2.2.2.2 [libDocEx] 0 (by simp)⟩

/-- C9: constructing an `Ebook` with `file_urls` and `categories`
omitted succeeds — it is not a validation failure — and yields the
empty mapping and the empty list respectively. -/
theorem ebook_empty_collection_defaults :
    validateEbook ebookDocEx = Except.ok ebookEx ∧
    ebookEx.file_urls = [] ∧ ebookEx.categories = [] :=
  ⟨by decide, rfl, rfl⟩

/-- C10: the identifier fields `Purchase.user_id`, `Purchase.ebook_id`,
`LibraryItem.user_id`, `LibraryItem.ebook_id` and `Ebook.created_by`
accept every string value whatsoever, including the empty string: only
string type (and presence, for the required ones) is enforced. -/
theorem id_fields_unconstrained :
    (∀ s₁ s₂ : String, validatePurchase (idsPurchaseDoc s₁ s₂) =
      Except.ok ⟨s₁, s₂, 5, "INR", "created", none, none, none⟩) ∧
    (∀ s₁ s₂ : String, validateLibraryItem (idsLibDoc s₁ s₂) =
      Except.ok ⟨s₁, s₂, none, 0⟩) ∧
    (∀ s : String, validateEbook (creatorDoc s) =
      Except.ok ⟨"T", "A", none, 1, "INR", none, [], [], true, some s⟩) ∧
    validatePurchase (idsPurchaseDoc "" "") =
      Except.ok ⟨"", "", 5, "INR", "created", none, none, none⟩ :=
  ⟨fun _ _ => rfl, fun _ _ => rfl, fun _ => rfl, rfl⟩
